import Mathlib

/-!
Verification of the oxiai repository against its natural-language
specification.  The Rust source is shallowly embedded: pure fragments
become Lean functions, the mutable `App` state becomes explicit state
passing, the `usize` counter of `BusyLot` becomes `Nat` reduced modulo
`2 ^ 64` exactly where the atomic `fetch_add` / `fetch_sub` wrap, and
fallible code returns `Option` / `Except`.  A `todo!()` in the source
(which aborts the process when reached) is modelled as `none`.
-/

namespace OxiAI

/-! ## BusyLot (src/busy_lot.rs)

`BusyLot` wraps an `Arc<AtomicUsize>`.  `park` performs
`fetch_add(1, AcqRel)` and returns a `Ticket`; dropping the `Ticket`
performs `fetch_sub(1, AcqRel)`; `is_busy` is `load(Acquire) != 0`.
We embed the counter as a `Nat` taken modulo the `usize` width
(64-bit platform), since `fetch_add` / `fetch_sub` wrap on overflow. -/

/-- Modulus of the `usize` counter on a 64-bit platform. -/
def usizeW : Nat := 2 ^ 64

namespace BusyLot

/-- Effect of `BusyLot::park` on the counter: `fetch_add(1, AcqRel)`,
wrapping at the `usize` width. -/
def park (c : Nat) : Nat := (c + 1) % usizeW

/-- Effect of `Ticket::drop` on the counter: `fetch_sub(1, AcqRel)`,
wrapping at the `usize` width (subtraction of one is addition of
`usizeW - 1` modulo `usizeW`). -/
def release (c : Nat) : Nat := (c + (usizeW - 1)) % usizeW

/-- `BusyLot::is_busy`: `load(Acquire) != 0`. -/
def is_busy (c : Nat) : Bool := c != 0

/-- One event in the life of a `BusyLot`: a call to `park` (creating a
ticket) or a drop of a previously created `Ticket`.  A trace in which
every `release` is the (unique) drop of an earlier `park` ticket has
`releases ≤ parks` in every prefix; the `Drop` impl guarantees each
ticket is released exactly once on every termination path of its
owner. -/
inductive Event
  | park
  | release
deriving DecidableEq, Repr

/-- Apply one event to the counter. -/
def step (c : Nat) : Event → Nat
  | .park => park c
  | .release => release c

/-- Run a trace of events from a starting counter value. -/
def run (c : Nat) (es : List Event) : Nat := es.foldl step c

/-- Number of `park` events in a trace. -/
def parks (es : List Event) : Nat := es.countP (· = .park)

/-- Number of ticket drops in a trace. -/
def releases (es : List Event) : Nat := es.countP (· = .release)

end BusyLot

/-! ## Chat data model (src/chat/mod.rs)

`HashMap<String, String>` argument maps are embedded as association
lists `List (String × String)`; the float-valued generation options
(`temperature`, `top_p`, ...) are outside the embedding and are not
needed by any claim. -/

/-- The `AssistantTool` enum. -/
inductive AssistantTool
  | wiki_search
  | web_search
  | get_date_time
  | get_dir_tree
  | get_file_contents
  | invalid_tool
deriving DecidableEq, Repr

/-- Display impl for `AssistantTool`. -/
def AssistantTool.display : AssistantTool → String
  | .wiki_search => "wiki_search"
  | .web_search => "web_search"
  | .get_date_time => "get_date_time"
  | .get_dir_tree => "get_dir_tree"
  | .get_file_contents => "get_file_contents"
  | .invalid_tool => "invalid_tool"

/-- The `Action` enum: `Chat` or `Tool(AssistantTool)`. -/
inductive Action
  | chat
  | tool (t : AssistantTool)
deriving DecidableEq, Repr

/-- Display impl for `Action`. -/
def Action.display : Action → String
  | .chat => "chat"
  | .tool t => t.display

/-- The `ActionPacket` struct: an action plus string-to-string
arguments. -/
structure ActionPacket where
  action : Action
  arguments : List (String × String)
deriving DecidableEq, Repr

/-- The `Message` struct: a role string and an `ActionPacket`
content. -/
structure Message where
  role : String
  content : ActionPacket
deriving DecidableEq, Repr

/-- The `MessageRoles` enum. -/
inductive MessageRoles
  | System
  | Tool
  | User
  | Assistant
  | Other
deriving DecidableEq, Repr

/-- Display impl for `MessageRoles`.  The `Other` arm of the source is
`todo!()` — reaching it aborts the process — modelled as `none`. -/
def MessageRoles.display : MessageRoles → Option String
  | .System => some "system"
  | .Tool => some "tool"
  | .User => some "user"
  | .Assistant => some "assistant"
  | .Other => none

/-- `Message::new(role, action, arguments)`: calls `role.to_string()`,
which panics for `MessageRoles::Other`; the panic is modelled as
`none`. -/
def Message.new (role : MessageRoles) (action : Action)
    (arguments : List (String × String)) : Option Message :=
  role.display.map fun r => { role := r, content := ⟨action, arguments⟩ }

/-- Escape of one character inside a JSON string literal, as
`serde_json` emits it for the characters that occur here. -/
def escChar (c : Char) : String :=
  if c = '"' then "\\\"" else if c = '\\' then "\\\\" else String.singleton c

/-- Escape of a whole string for a JSON string literal. -/
def escStr (s : String) : String := String.join (s.toList.map escChar)

/-- Rendering of a `HashMap<String, String>` by
`serde_json::to_string`, on the association-list embedding (the hash
map of the source iterates in unspecified order; the list fixes
one). -/
def renderArguments (args : List (String × String)) : String :=
  "\x7b" ++
    String.intercalate ","
      (args.map fun kv => "\"" ++ escStr kv.1 ++ "\":\"" ++ escStr kv.2 ++ "\"") ++
    "\x7d"

/-- Display impl for `ActionPacket`: `"{action} {arguments_json}"`
(the serialization of a string map cannot fail, so the fallback arm of
the source is unreachable). -/
def ActionPacket.render (p : ActionPacket) : String :=
  p.action.display ++ " " ++ renderArguments p.arguments

/-- The `Prompt` struct sent on the wire: role and content strings. -/
structure Prompt where
  role : String
  content : String
deriving DecidableEq, Repr

/-- `From<Message> for Prompt`: the content is the Display rendering
of the `ActionPacket`. -/
def Prompt.ofMessage (m : Message) : Prompt :=
  { role := m.role, content := m.content.render }

/-- The `ChatRequest` struct (without the float-valued `options`,
which no claim mentions). -/
structure ChatRequest where
  model : String
  messages : List Prompt
  stream : Bool
  format : String
  stop : List String
deriving DecidableEq, Repr

/-- The `ChatResponse` struct returned by the service. -/
structure ChatResponse where
  model : String
  created_at : String
  message : Message
  done : Bool
  done_reason : Option String
  total_duration : Option Nat
  eval_count : Option Nat
  eval_duration : Option Nat
  prompt_eval_count : Option Nat
  prompt_eval_duration : Option Nat
deriving Repr

/-! ## JSON values, serialization and deserialization of `Message`

`Message` derives `Serialize` (so `content` is emitted as an inline
JSON object) but deserializes `content` through the custom
`Message::de_content`, which first requires a JSON *string* and then
parses that string as an `ActionPacket` (nested encoding).  The
external `serde_json` string-level parse is a parameter
`fromStr`. -/

/-- JSON values. -/
inductive Json
  | null
  | bool (b : Bool)
  | num (n : Int)
  | str (s : String)
  | arr (xs : List Json)
  | obj (fields : List (String × Json))
deriving Repr

/-- Serialization of `AssistantTool`: the enum is
`#[serde(untagged)]` with only unit variants, so every variant
serializes as `null`. -/
def AssistantTool.serialize : AssistantTool → Json := fun _ => .null

/-- Serialization of `Action` (externally tagged,
`rename_all = "lowercase"`). -/
def Action.serialize : Action → Json
  | .chat => .str "chat"
  | .tool t => .obj [("tool", t.serialize)]

/-- Serialization of a string-to-string map. -/
def serializeArguments (args : List (String × String)) : Json :=
  .obj (args.map fun kv => (kv.1, Json.str kv.2))

/-- Derived serialization of `ActionPacket`: an inline JSON object. -/
def ActionPacket.serialize (p : ActionPacket) : Json :=
  .obj [("action", p.action.serialize), ("arguments", serializeArguments p.arguments)]

/-- Derived serialization of `Message`: `content` is the inline
`ActionPacket` object. -/
def Message.serialize (m : Message) : Json :=
  .obj [("role", .str m.role), ("content", m.content.serialize)]

/-- Reading a field out of a JSON object. -/
def getField : List (String × Json) → String → Option Json
  | [], _ => none
  | (k, v) :: rest, key => if k = key then some v else getField rest key

/-- View of a JSON value as a string, as `String::deserialize`
accepts it. -/
def Json.asStr : Json → Option String
  | .str s => some s
  | _ => none

/-- `Message::de_content`: deserialize a `String` (failing on any
non-string JSON value), then run `serde_json::from_str` — the
parameter `fromStr` — on it. -/
def Message.de_content (fromStr : String → Option ActionPacket) (j : Json) :
    Option ActionPacket :=
  match j.asStr with
  | some s => fromStr s
  | none => none

/-- Derived deserialization of `Message`, with `content` routed
through `Message::de_content`. -/
def Message.deserialize (fromStr : String → Option ActionPacket) (j : Json) :
    Option Message :=
  match j with
  | .obj fields =>
    match getField fields "role" with
    | none => none
    | some roleJ =>
      match roleJ.asStr with
      | none => none
      | some role =>
        match getField fields "content" with
        | none => none
        | some contentJ =>
          match Message.de_content fromStr contentJ with
          | none => none
          | some content => some { role := role, content := content }
  | _ => none

/-! ## Application state and the event loop (src/main.rs)

The mutable `App` is embedded as a record; each key-handling branch of
the loop becomes a state-transformer.  The direct `.await` of
`batch_ollama_response` in the `Enter` branch is the single "RunChat
command" of the spec, recorded in an explicit command list. -/

/-- The parsed command-line `Args`. -/
structure Args where
  model : String
  stream : Bool
  nerd_stats : Bool
deriving DecidableEq, Repr

/-- The `App` struct: CLI args, input buffer, transcript, waiting
flag. -/
structure App where
  args : Args
  prompt : String
  messages : List Message
  waiting : Bool
deriving DecidableEq, Repr

/-- One unit of asynchronous work requested by the loop (the single
variant the source issues: a chat round-trip). -/
inductive Command
  | runChat (req : ChatRequest)
deriving DecidableEq, Repr

/-- The `KeyCode::Char(c)` branch: push the character onto the
prompt. -/
def charStep (c : Char) (app : App) : App :=
  { app with prompt := app.prompt.push c }

/-- The `KeyCode::Backspace` branch: `app.prompt.pop()`, dropping the
last character if any. -/
def backspaceStep (app : App) : App :=
  { app with prompt := app.prompt.dropRight 1 }

/-- The `KeyCode::Enter` branch: build the argument map from the
buffer, clear the buffer, append the user message (the source writes
`Action::ChatMessage`, the chat action of the `Action` enum), build
the request from the system prompt plus the transcript, set `waiting`,
and dispatch one chat round-trip.  `none` models the two aborts of
this branch: the `Message::new` panic on an undisplayable role and the
`todo!()` on the streaming path. -/
def enterStep (systemPrompt : String) (app : App) : Option (App × List Command) :=
  let message_args : List (String × String) := [("response", app.prompt)]
  match Message.new .User .chat message_args with
  | none => none
  | some userMsg =>
    let msgs := app.messages ++ [userMsg]
    let prompts : List Prompt :=
      { role := "system", content := systemPrompt } :: msgs.map Prompt.ofMessage
    let req : ChatRequest :=
      { model := app.args.model, messages := prompts, stream := app.args.stream,
        format := "json", stop := ["\n\n\n\n"] }
    if app.args.stream then
      none
    else
      some ({ app with prompt := "", messages := msgs, waiting := true },
            [Command.runChat req])

/-- Outcome of the HTTP round-trip inside `batch_ollama_response`:
either the transport fails (`send()` / `bytes()` return `Err`, the
`e` being the error rendering), or a body arrives and
`serde_json::from_slice::<ChatResponse>` either decodes it
(`decoded = some r`) or not (`decoded = none`). -/
inductive FetchOutcome
  | netErr (e : String)
  | body (decoded : Option ChatResponse) (bodyText : String)

/-- `batch_ollama_response`: a transport failure propagates out
through `?` (the `Except.error`); a decode failure prints diagnostics
and leaves the transcript alone; a decoded response is appended.  In
both non-error cases `waiting` is cleared at the end.  The returned
list carries the `println!` diagnostic lines. -/
def batch_ollama_response (app : App) (out : FetchOutcome) :
    Except String (App × List String) :=
  match out with
  | .netErr e => .error e
  | .body decoded bodyText =>
    match decoded with
    | some r =>
        .ok ({ app with messages := app.messages ++ [r.message], waiting := false }, [])
    | none =>
        .ok ({ app with waiting := false },
             ["Failed to parse JSON", "Status", "Headers", "Body text: " ++ bodyText])

/-- How the event loop of `main` ends: `Esc` hits the `break`, or
some `?` inside the loop body (draw, poll, or the dispatched chat
round-trip) returns an error. -/
inductive LoopOutcome
  | quitEsc
  | fail (e : String)
deriving DecidableEq, Repr

/-- What `main` does after the loop: `restored` records whether the
terminal-restore block (`disable_raw_mode`, `LeaveAlternateScreen`,
`DisableMouseCapture`, `show_cursor`) ran before the function
returned.  In the source that block sits only after the loop, so an
`Err` propagating out of the loop body returns from `main` without
reaching it. -/
structure MainExit where
  restored : Bool
  result : Except String Unit
deriving Repr

/-- Tail of `main`: translate the way the loop ended into the exit of
the process. -/
def mainExit : LoopOutcome → MainExit
  | .quitEsc => { restored := true, result := .ok () }
  | .fail e => { restored := false, result := .error e }

/-- One `Enter`-triggered loop iteration followed by its chat
round-trip, as the loop body sequences them; an error from either is
the `Err` the loop body propagates (a `none` from `enterStep` is an
abort, kept separate as `none`). -/
def loopEnterIter (systemPrompt : String) (app : App) (out : FetchOutcome) :
    Option (Except String (App × List String)) :=
  match enterStep systemPrompt app with
  | none => none
  | some (app1, _) => some (batch_ollama_response app1 out)

/-! ## Tool-call chaining (spec §4.3)

Modelled from the spec: the recursive tool-call chain of the
WorkerDispatcher (classify a response, execute a requested tool,
re-issue `RunChat` with the grown transcript, bounded by a maximum
depth, default 8, with a `ToolRecursionLimit` failure past the bound)
is absent from the source tree — `main.rs` performs a single
round-trip and never dispatches a tool.  The model drives the chain
from a `script` giving the response of the service to the n-th
dispatch. -/

/-- Modelled from the spec: classification of one service response —
either a plain conversational reply or a request for a tool. -/
inductive ToolResponse
  | chatReply (response : String)
  | toolCall (t : AssistantTool)

/-- Modelled from the spec: how a tool-call chain ends. -/
inductive ChainOutcome
  | done (response : String)
  | toolRecursionLimit
deriving DecidableEq, Repr

/-- Modelled from the spec: the default maximum chain depth. -/
def defaultMaxDepth : Nat := 8

/-- Modelled from the spec: the chain with `fuel` dispatches still
allowed and `dispatched` already issued.  Out of fuel, the chain fails
with `ToolRecursionLimit`; a chat reply ends it; a tool call consumes
one dispatch and recurses.  Returns the outcome and the total number
of `RunChat` dispatches issued. -/
def runChatChain (script : Nat → ToolResponse) :
    Nat → Nat → ChainOutcome × Nat
  | 0, dispatched => (.toolRecursionLimit, dispatched)
  | fuel + 1, dispatched =>
    match script dispatched with
    | .chatReply r => (.done r, dispatched + 1)
    | .toolCall _ => runChatChain script fuel (dispatched + 1)

/-- Modelled from the spec: a whole chain with the configured maximum
depth. -/
def runChat (script : Nat → ToolResponse) (maxDepth : Nat) : ChainOutcome × Nat :=
  runChatChain script maxDepth 0

/-! ## Theorems -/

theorem BusyLot.step_lt (c : Nat) (e : BusyLot.Event) : BusyLot.step c e < usizeW := by
  cases e <;> simp [BusyLot.step, BusyLot.park, BusyLot.release, usizeW] <;> omega

theorem BusyLot.run_eq_counts (es : List BusyLot.Event) :
    ∀ c : Nat, c < usizeW →
      BusyLot.run c es =
        (c + BusyLot.parks es + (usizeW - 1) * BusyLot.releases es) % usizeW := by
  induction es with
  | nil =>
      intro c hc
      simp [BusyLot.run, BusyLot.parks, BusyLot.releases]
      exact (Nat.mod_eq_of_lt hc).symm
  | cons e es ih =>
      intro c hc
      have hrun : BusyLot.run c (e :: es) = BusyLot.run (BusyLot.step c e) es := rfl
      rw [hrun, ih (BusyLot.step c e) (BusyLot.step_lt c e)]
      cases e <;>
        simp [BusyLot.step, BusyLot.park, BusyLot.release, BusyLot.parks,
          BusyLot.releases, List.countP_cons] <;>
        · unfold usizeW
          omega

/-- C1: over any trace of park and release events in which releases
never outnumber the parks that created their tickets (the RAII `Drop`
discipline: each acquire creates exactly one ticket, each ticket is
released exactly once on every termination path of its owner), the
counter — a `Nat`, hence never negative — equals the number of live,
un-released tickets, and once all tickets have been released,
`is_busy` is `false`, regardless of whether the underlying operations
failed. -/
theorem busyLot_ticket_conservation (es : List BusyLot.Event)
    (hle : BusyLot.releases es ≤ BusyLot.parks es)
    (hlt : BusyLot.parks es - BusyLot.releases es < usizeW) :
    BusyLot.run 0 es = BusyLot.parks es - BusyLot.releases es ∧
    (BusyLot.parks es = BusyLot.releases es →
      BusyLot.is_busy (BusyLot.run 0 es) = false) := by
  have h0 : (0 : Nat) < usizeW := by unfold usizeW; omega
  have hmain := BusyLot.run_eq_counts es 0 h0
  constructor
  · rw [hmain]
    unfold usizeW at *
    omega
  · intro heq
    rw [hmain]
    unfold BusyLot.is_busy usizeW at *
    simp
    omega

/-- Witness for C1 on the concrete trace
park, park, release, park, release, release. -/
theorem busyLot_ticket_conservation_witness :
    BusyLot.releases [BusyLot.Event.park, .park, .release, .park, .release, .release] ≤
      BusyLot.parks [BusyLot.Event.park, .park, .release, .park, .release, .release] ∧
    BusyLot.parks [BusyLot.Event.park, .park, .release, .park, .release, .release] -
      BusyLot.releases [BusyLot.Event.park, .park, .release, .park, .release, .release] <
        usizeW ∧
    (BusyLot.run 0 [BusyLot.Event.park, .park, .release, .park, .release, .release] =
      BusyLot.parks [BusyLot.Event.park, .park, .release, .park, .release, .release] -
        BusyLot.releases [BusyLot.Event.park, .park, .release, .park, .release, .release] ∧
    (BusyLot.parks [BusyLot.Event.park, .park, .release, .park, .release, .release] =
      BusyLot.releases [BusyLot.Event.park, .park, .release, .park, .release, .release] →
      BusyLot.is_busy
        (BusyLot.run 0 [BusyLot.Event.park, .park, .release, .park, .release, .release]) =
        false)) :=
  ⟨by decide, by decide,
    busyLot_ticket_conservation
      [BusyLot.Event.park, .park, .release, .park, .release, .release]
      (by decide) (by decide)⟩

/-- C2: the contract of the busy counter — `park` increments the
shared counter by one (below the wrap bound) and `is_busy` is true
iff the counter is non-zero; releasing a ticket (the `Drop` impl)
decrements the counter by one. -/
theorem busyLot_contract (c : Nat) :
    (c + 1 < usizeW → BusyLot.park c = c + 1) ∧
    (BusyLot.is_busy c = true ↔ c ≠ 0) ∧
    (0 < c → c < usizeW → BusyLot.release c = c - 1) := by
  refine ⟨fun h => ?_, ?_, fun h0 hw => ?_⟩
  · unfold BusyLot.park
    exact Nat.mod_eq_of_lt h
  · unfold BusyLot.is_busy
    simp
  · unfold BusyLot.release usizeW at *
    omega

/-- Witness for C2 at counter value 5. -/
theorem busyLot_contract_witness :
    BusyLot.park 5 = 5 + 1 ∧ (BusyLot.is_busy 5 = true ↔ (5 : Nat) ≠ 0) ∧
      BusyLot.release 5 = 5 - 1 :=
  ⟨(busyLot_contract 5).1 (by decide), (busyLot_contract 5).2.1,
    (busyLot_contract 5).2.2 (by decide) (by decide)⟩

theorem runChatChain_always_tool (script : Nat → ToolResponse) (t : AssistantTool)
    (h : ∀ d, script d = .toolCall t) :
    ∀ fuel dispatched : Nat,
      runChatChain script fuel dispatched =
        (ChainOutcome.toolRecursionLimit, dispatched + fuel) := by
  intro fuel
  induction fuel with
  | zero => intro dispatched; simp [runChatChain]
  | succ n ih =>
      intro dispatched
      rw [runChatChain, h dispatched, ih (dispatched + 1)]
      simp only [Prod.mk.injEq, true_and]
      omega

/-- C3: the tool-call chain always terminates (`runChat` is a total
function), and a script that requests the same tool on every dispatch
ends the chain with `ToolRecursionLimit` after exactly the configured
maximum depth of dispatches — by default 8 — never more. -/
theorem toolRecursionLimit_bound (script : Nat → ToolResponse) (t : AssistantTool)
    (h : ∀ d, script d = .toolCall t) (maxDepth : Nat) :
    defaultMaxDepth = 8 ∧
    runChat script maxDepth = (ChainOutcome.toolRecursionLimit, maxDepth) := by
  refine ⟨rfl, ?_⟩
  unfold runChat
  rw [runChatChain_always_tool script t h maxDepth 0]
  simp only [Prod.mk.injEq, true_and]
  omega

/-- Witness for C3: the script that always requests `wiki_search`,
with the default maximum depth. -/
theorem toolRecursionLimit_bound_witness :
    defaultMaxDepth = 8 ∧
    runChat (fun _ => ToolResponse.toolCall AssistantTool.wiki_search) defaultMaxDepth =
      (ChainOutcome.toolRecursionLimit, defaultMaxDepth) :=
  toolRecursionLimit_bound (fun _ => ToolResponse.toolCall AssistantTool.wiki_search)
    AssistantTool.wiki_search (fun _ => rfl) defaultMaxDepth

/-- C4: at the failing input — a message whose role is
`MessageRoles::Other`, i.e. a role outside the recognized set — the
Display impl hits `todo!()` and the process aborts (modelled as
`none`), so constructing a message with that role aborts too; no
typed `UnrecognizedTool` error value is produced and the program does
not continue. -/
theorem other_role_aborts :
    MessageRoles.display MessageRoles.Other = none ∧
    Message.new MessageRoles.Other Action.chat [] = none := ⟨rfl, rfl⟩

/-- C5 counterexample: at the concrete input — an `App` that is
waiting on one request and a transport failure "connection refused" —
`batch_ollama_response` does not recover the network error into a
displayed result: it propagates it as `Err`, and an `Err` from the
loop body terminates the loop (and `main`). -/
theorem netError_fatal_counterexample :
    batch_ollama_response (⟨⟨"mistral:latest", false, false⟩, "", [], true⟩ : App)
      (FetchOutcome.netErr "connection refused") = .error "connection refused" ∧
    (mainExit (LoopOutcome.fail "connection refused")).result =
      .error "connection refused" := ⟨rfl, rfl⟩

/-- C5 amended: a decode failure (unparsable response body) is
recovered inside `batch_ollama_response` — diagnostics are printed
and the call returns `Ok` with `waiting` cleared — but a transport
failure (`NetworkError`) propagates out of the worker through `?` and
terminates the coordinating loop. -/
theorem batch_error_propagation (app : App) (e bodyText : String) :
    batch_ollama_response app (.netErr e) = .error e ∧
    batch_ollama_response app (.body none bodyText) =
      .ok ({ app with waiting := false },
           ["Failed to parse JSON", "Status", "Headers", "Body text: " ++ bodyText]) :=
  ⟨rfl, rfl⟩

/-- C6: at the failing input — any `Err` escaping the loop body, such
as a transport failure — `main` returns without running the
terminal-restore block, which the source places only after the loop;
restoration runs on the normal `Esc` quit path alone. -/
theorem error_exit_skips_restore :
    (mainExit (LoopOutcome.fail "connection refused")).restored = false ∧
    (mainExit LoopOutcome.quitEsc).restored = true := ⟨rfl, rfl⟩

/-- C7: on `Enter` while not streaming, the loop appends exactly one
`User` entry whose arguments map "response" to the buffer text,
clears the buffer, sets `waiting := true`, and dispatches exactly one
`RunChat` command carrying the system prompt plus the rendered
transcript. -/
theorem enter_submit (sp : String) (app : App) (h : app.args.stream = false) :
    enterStep sp app =
      some ({ app with
                prompt := "",
                messages := app.messages ++
                  [{ role := "user",
                     content := { action := Action.chat,
                                  arguments := [("response", app.prompt)] } }],
                waiting := true },
            [Command.runChat
              { model := app.args.model,
                messages :=
                  { role := "system", content := sp } ::
                    (app.messages ++
                      [({ role := "user",
                          content := { action := Action.chat,
                                       arguments := [("response", app.prompt)] } } :
                          Message)]).map
                      Prompt.ofMessage,
                stream := app.args.stream,
                format := "json",
                stop := ["\n\n\n\n"] }]) := by
  simp [enterStep, Message.new, MessageRoles.display, h]

/-- Witness for C7: submitting "Hello" from an idle, empty session
with streaming off. -/
theorem enter_submit_witness :
    (⟨⟨"mistral:latest", false, false⟩, "Hello", [], false⟩ : App).args.stream = false ∧
    enterStep "sys" (⟨⟨"mistral:latest", false, false⟩, "Hello", [], false⟩ : App) =
      some ((⟨⟨"mistral:latest", false, false⟩, "",
               [⟨"user", ⟨Action.chat, [("response", "Hello")]⟩⟩], true⟩ : App),
            [Command.runChat
              ⟨"mistral:latest",
               ⟨"system", "sys"⟩ ::
                 ([] ++ [(⟨"user", ⟨Action.chat, [("response", "Hello")]⟩⟩ : Message)]).map
                   Prompt.ofMessage,
               false, "json", ["\n\n\n\n"]⟩]) :=
  ⟨rfl, enter_submit "sys" (⟨⟨"mistral:latest", false, false⟩, "Hello", [], false⟩ : App) rfl⟩

/-- C8: when the chat round-trip completes with a decode failure, the
loop state transitions back to idle (`waiting = false`), diagnostics
are produced for display, and the transcript and input buffer are
left exactly as they were. -/
theorem decode_failure_frame (app : App) (bodyText : String) :
    ∃ app2 disp,
      batch_ollama_response app (.body none bodyText) = .ok (app2, disp) ∧
      app2.messages = app.messages ∧ app2.waiting = false ∧
      app2.prompt = app.prompt ∧ disp ≠ [] := by
  exact ⟨{ app with waiting := false }, _, rfl, rfl, rfl, rfl, by simp⟩

/-- C9: serializing any `Message` (derived `Serialize`: the content
field is an inline JSON object) and feeding the result back to the
`Message` deserializer (whose `de_content` insists on a JSON string
holding a nested-encoded `ActionPacket`) fails, whatever string-level
parse `serde_json::from_str` performs. -/
theorem message_serde_no_roundtrip (fromStr : String → Option ActionPacket)
    (m : Message) :
    Message.deserialize fromStr (Message.serialize m) = none := rfl

/-- C10: pressing Backspace with an empty input buffer leaves the
whole application state unchanged — buffer still empty, transcript
untouched, waiting flag as before — and cannot fail (`backspaceStep`
is total). -/
theorem backspace_empty_noop (app : App) (h : app.prompt = "") :
    backspaceStep app = app ∧ (backspaceStep app).prompt = "" ∧
    (backspaceStep app).messages = app.messages ∧
    (backspaceStep app).waiting = app.waiting := by
  have h1 : backspaceStep app = app := by
    unfold backspaceStep
    rw [h]
    have h2 : ("" : String).dropRight 1 = "" := rfl
    rw [h2, ← h]
  exact ⟨h1, by rw [h1, h], by rw [h1], by rw [h1]⟩

/-- Witness for C10: Backspace on an idle session with an empty
buffer. -/
theorem backspace_empty_noop_witness :
    (⟨⟨"mistral:latest", false, false⟩, "", [], false⟩ : App).prompt = "" ∧
    (backspaceStep (⟨⟨"mistral:latest", false, false⟩, "", [], false⟩ : App) =
        (⟨⟨"mistral:latest", false, false⟩, "", [], false⟩ : App) ∧
      (backspaceStep (⟨⟨"mistral:latest", false, false⟩, "", [], false⟩ : App)).prompt = "" ∧
      (backspaceStep (⟨⟨"mistral:latest", false, false⟩, "", [], false⟩ : App)).messages =
        (⟨⟨"mistral:latest", false, false⟩, "", [], false⟩ : App).messages ∧
      (backspaceStep (⟨⟨"mistral:latest", false, false⟩, "", [], false⟩ : App)).waiting =
        (⟨⟨"mistral:latest", false, false⟩, "", [], false⟩ : App).waiting) :=
  ⟨rfl, backspace_empty_noop (⟨⟨"mistral:latest", false, false⟩, "", [], false⟩ : App) rfl⟩

end OxiAI
